import Mathlib

/-!
Verification of the JobHunt tracker's local-state synchronization and
schema-migration contract.

The program stores a collection of job-application records as a JSON document.
We embed the JSON value space shallowly (`Json`), together with the JavaScript
dynamics the code relies on: truthiness, property access (which throws on
`null`), object spread, and object-literal overriding.  Machine-level details
that are invisible at the JSON level are normalized: a property whose value is
`undefined` is modelled as an absent key (JSON serialization drops such
properties), and object key sets are assumed duplicate-free, as produced by
JSON parsing.
-/

namespace JobHunt

/-- JSON values, as produced by parsing the persisted document.  `undefined`
does not occur in parsed JSON; absence of an object key plays its role. -/
inductive Json where
  | null : Json
  | bool (b : Bool) : Json
  | num (n : Int) : Json
  | str (s : String) : Json
  | arr (elems : List Json) : Json
  | obj (fields : List (String × Json)) : Json

/-- JavaScript truthiness of a JSON value (arrays and objects are truthy,
`null`, `false`, `0` and the empty string are falsy). -/
def truthy : Json → Bool
  | .null => false
  | .bool b => b
  | .num n => n != 0
  | .str s => s != ""
  | .arr _ => true
  | .obj _ => true

/-- Named-property read on a JSON value, ignoring `null` (see `jsGet`).  Named
properties of arrays, strings, numbers and booleans used by this program
(`contacts`, `recruitingContact`, …) are all `undefined`, modelled as `none`. -/
def getField : Json → String → Option Json
  | .obj fs, k => fs.lookup k
  | _, _ => none

/-- JavaScript property access `j[k]`: throws a `TypeError` when `j` is
`null`, otherwise yields the property value (`none` models `undefined`). -/
def jsGet (j : Json) (k : String) : Except Unit (Option Json) :=
  match j with
  | .null => .error ()
  | j => .ok (getField j k)

/-- Truthiness of a possibly-`undefined` value (`undefined` is falsy). -/
def truthyOpt : Option Json → Bool
  | some v => truthy v
  | none => false

/-- Own enumerable properties contributed by object spread `{...j}`: an
object's fields, a string's or array's indexed elements, nothing otherwise. -/
def spreadFields : Json → List (String × Json)
  | .obj fs => fs
  | .str s => s.toList.enum.map (fun p => (toString p.1, Json.str (String.mk [p.2])))
  | .arr l => l.enum.map (fun p => (toString p.1, p.2))
  | _ => []

/-- Setting key `k` to `v` in an object literal `{...fs, k: v}`: an existing
key keeps its position and is overridden, a new key is appended. -/
def setKey : List (String × Json) → String → Json → List (String × Json)
  | [], k, v => [(k, v)]
  | (k9, v9) :: fs, k, v => if k9 == k then (k, v) :: fs else (k9, v9) :: setKey fs k v

/-- Setting key `k` to `undefined` in an object literal: at the JSON level the
key disappears (serialization drops `undefined`-valued properties). -/
def removeKey (fs : List (String × Json)) (k : String) : List (String × Json) :=
  fs.filter (fun p => p.1 != k)

/-- The contact object synthesized by the migration from the deprecated
`recruitingContact` string (`src/App.tsx` lines 24-32, and the identical
literal in the import sanitizer, lines 190-198).  `gid` stands for the
`Math.random()`-derived id generated at that point. -/
def newContact (gid organization : String) : Json :=
  .obj [("id", .str gid), ("name", .str "Primary Contact"), ("role", .str ""),
        ("email", .str ""), ("phone", .str ""), ("linkedin", .str ""),
        ("organization", .str organization)]

/-- The load-time migration applied to each element of the persisted
collection (`src/App.tsx` lines 19-37).  `gid` is the id that
`Math.random().toString(36).substr(2, 9)` would produce for the synthesized
contact.  The result is an error exactly when the JavaScript code would throw
(property access on `null`). -/
def migrate (gid : String) (j : Json) : Except Unit Json :=
  match jsGet j "contacts" with
  | .error e => .error e
  | .ok c =>
    if truthyOpt c then .ok j
    else
      match jsGet j "recruitingContact" with
      | .error e => .error e
      | .ok (some (.str s)) =>
        if s == "" then
          .ok (.obj (setKey (spreadFields j) "contacts" (.arr [])))
        else
          .ok (.obj (removeKey
            (setKey (spreadFields j) "contacts" (.arr [newContact gid s]))
            "recruitingContact"))
      | .ok _ => .ok (.obj (setKey (spreadFields j) "contacts" (.arr [])))

/-- The migration `map` over the parsed collection, element by element, inside
the `try` block: the first thrown error aborts the whole `map`.  `gid i` is
the contact id that would be generated for element `i`. -/
def loadMigrateAll (gid : Nat → String) : Nat → List Json → Except Unit (List Json)
  | _, [] => .ok []
  | i, j :: js =>
    match migrate (gid i) j with
    | .error e => .error e
    | .ok r =>
      match loadMigrateAll gid (i + 1) js with
      | .error e => .error e
      | .ok rest => .ok (r :: rest)

/-- The `useState` initializer on a successfully parsed stored document
(`src/App.tsx` lines 13-44): a non-array parse result makes `.map` throw, and
any thrown error is caught, yielding the empty collection. -/
def loadParsed (gid : Nat → String) (parsed : Json) : List Json :=
  match parsed with
  | .arr js =>
    match loadMigrateAll gid 0 js with
    | .ok l => l
    | .error _ => []
  | _ => []

/-! ## Import pipeline (`src/App.tsx` lines 158-249) -/

/-- JavaScript `typeof x === 'object'`: true for objects, arrays and `null`. -/
def isObjectType : Json → Bool
  | .null => true
  | .obj _ => true
  | .arr _ => true
  | _ => false

/-- The `a || b` default idiom: `b` when `a` is absent or falsy. -/
def jOr (o : Option Json) (d : Json) : Json :=
  match o with
  | some v => if truthy v then v else d
  | none => d

/-- `Object.values(JobStatus)` from `src/types.ts`. -/
def statusValues : List String :=
  ["APPLIED", "INTERVIEWING", "OFFER", "REJECTED", "WISHLIST"]

/-- The per-element import sanitizer (`src/App.tsx` lines 184-216).  `gid` is
the id generated when `item.id` is falsy, `cgid` the id generated for a
synthesized contact, `now` the value of `new Date().toISOString()`.  `none`
models the `null` returned for elements that are not objects, which the
subsequent `filter` drops. -/
def sanitizeItem (gid cgid now : String) (item : Json) : Option Json :=
  if !truthy item || !isObjectType item then none
  else
    let contacts0 : List Json :=
      match getField item "contacts" with
      | some (.arr l) => l
      | _ => []
    let contacts : List Json :=
      if contacts0.length == 0 then
        match getField item "recruitingContact" with
        | some (.str s) => if s == "" then contacts0 else contacts0 ++ [newContact cgid s]
        | _ => contacts0
      else contacts0
    some (.obj (
      [("id", jOr (getField item "id") (.str gid)),
       ("company", jOr (getField item "company") (.str "Unknown Company")),
       ("role", jOr (getField item "role") (.str "Unknown Role")),
       ("location", jOr (getField item "location") (.str "")),
       ("contacts", .arr contacts)] ++
      (match getField item "salaryRange" with
       | some v => [("salaryRange", v)]
       | none => []) ++
      [("status",
        match getField item "status" with
        | some (.str s) => if statusValues.contains s then .str s else .str "APPLIED"
        | _ => .str "APPLIED"),
       ("dateApplied", jOr (getField item "dateApplied") (.str now)),
       ("description", jOr (getField item "description") (.str "")),
       ("notes", jOr (getField item "notes") (.str "")),
       ("emails",
        match getField item "emails" with
        | some (.arr l) => .arr l
        | _ => .arr []),
       ("events",
        match getField item "events" with
        | some (.arr l) => .arr l
        | _ => .arr []),
       ("aiInsights", jOr (getField item "aiInsights") (.obj []))]))

/-- The `map`-and-`filter` over imported elements, with fresh ids per element:
`ids i` gives the pair of generated ids available to element `i`. -/
def sanitizeList (ids : Nat → String × String) (now : String) :
    Nat → List Json → List Json
  | _, [] => []
  | i, item :: items =>
    match sanitizeItem (ids i).1 (ids i).2 now item with
    | some r => r :: sanitizeList ids now (i + 1) items
    | none => sanitizeList ids now (i + 1) items

/-- Outcome of processing a successfully read import file
(`src/App.tsx` lines 166-236). -/
inductive ImportOutcome where
  | invalidJson : ImportOutcome
  | notAList : ImportOutcome
  | noValidRecords : ImportOutcome
  | proposeReplace (sanitized : List Json) : ImportOutcome

/-- Processing of the parsed import document: a non-array is rejected, an
empty sanitized result is rejected, otherwise the sanitized collection is
proposed as a full replacement pending operator confirmation. -/
def importParsed (ids : Nat → String × String) (now : String)
    (parsed : Json) : ImportOutcome :=
  match parsed with
  | .arr js =>
    let s := sanitizeList ids now 0 js
    if s.isEmpty then .noValidRecords else .proposeReplace s
  | _ => .notAList

/-- Effect of the import outcome on the stored collection: only a confirmed
`proposeReplace` changes it (the `onConfirm` handler, `src/App.tsx` line 230);
every rejection and an unconfirmed dialog leave the data untouched. -/
def applyImport (prior : List Json) (r : ImportOutcome) (confirmed : Bool) :
    List Json :=
  match r, confirmed with
  | .proposeReplace s, true => s
  | _, _ => prior

/-! ## Typed record model (`src/types.ts`) and its JSON serialization

Export is `JSON.stringify(jobs, null, 2)` and import re-parses that text;
parsing the serialization of a JSON value gives back the value, so the export
document of a collection is modelled directly as the JSON value of the
collection.  JavaScript deep equality of objects ignores key order; the model
fixes one canonical key order (the sanitizer's output order) for serialized
records, and optional fields serialize to an absent key when missing. -/

/-- The `JobStatus` enumeration. -/
inductive JobStatus where
  | APPLIED | INTERVIEWING | OFFER | REJECTED | WISHLIST
deriving DecidableEq

/-- The string value of a status. -/
def JobStatus.toStr : JobStatus → String
  | .APPLIED => "APPLIED"
  | .INTERVIEWING => "INTERVIEWING"
  | .OFFER => "OFFER"
  | .REJECTED => "REJECTED"
  | .WISHLIST => "WISHLIST"

/-- The `Contact` entity. -/
structure Contact where
  id : String
  name : String
  role : String
  email : String
  phone : String
  linkedin : String
  organization : String

/-- Serialization of a contact. -/
def Contact.toJson (c : Contact) : Json :=
  .obj [("id", .str c.id), ("name", .str c.name), ("role", .str c.role),
        ("email", .str c.email), ("phone", .str c.phone),
        ("linkedin", .str c.linkedin), ("organization", .str c.organization)]

/-- An optional field serializes to an absent key when missing. -/
def optField (k : String) : Option Json → List (String × Json)
  | some v => [(k, v)]
  | none => []

/-- A `Job` record as held in memory by the application.  The nested `emails`,
`events` and `aiInsights` payloads are carried as JSON values: the import
sanitizer passes them through without inspecting their elements. -/
structure Job where
  id : String
  company : String
  role : String
  location : Option String
  salaryRange : Option String
  status : JobStatus
  dateApplied : String
  description : String
  notes : String
  emails : List Json
  events : List Json
  contacts : List Contact
  recruitingContact : Option String
  aiInsights : Option Json

/-- Serialization of a record, in the sanitizer's canonical key order. -/
def Job.toJson (j : Job) : Json :=
  .obj ([("id", .str j.id), ("company", .str j.company), ("role", .str j.role)]
    ++ optField "location" (j.location.map .str)
    ++ [("contacts", .arr (j.contacts.map Contact.toJson))]
    ++ optField "salaryRange" (j.salaryRange.map .str)
    ++ [("status", .str j.status.toStr),
        ("dateApplied", .str j.dateApplied),
        ("description", .str j.description),
        ("notes", .str j.notes),
        ("emails", .arr j.emails),
        ("events", .arr j.events)]
    ++ optField "recruitingContact" (j.recruitingContact.map .str)
    ++ optField "aiInsights" j.aiInsights)

/-- The export document of a collection (`handleExportData`,
`src/App.tsx` lines 130-148): the serialized collection, order preserved. -/
def exportData (jobs : List Job) : Json :=
  .arr (jobs.map Job.toJson)

/-- The conditions under which the import sanitizer reproduces an exported
record exactly: the strings that `||` would replace with placeholders are
non-empty, the optional fields that the sanitizer always materializes
(`location`, `aiInsights`) are present with a truthy `aiInsights`, and the
deprecated `recruitingContact` (which the sanitizer never emits) is absent. -/
def ExportStable (job : Job) : Prop :=
  job.id ≠ "" ∧ job.company ≠ "" ∧ job.role ≠ "" ∧ job.dateApplied ≠ "" ∧
  job.location.isSome = true ∧ job.recruitingContact = none ∧
  ∃ v, job.aiInsights = some v ∧ truthy v = true

/-! ## Remote sync adapter (`src/unnamed/part_002`)

Rows fetched from the spreadsheet are lists of cell strings; a missing cell
reads as the empty string, as does `row[i]` past the row's length
(`undefined` and `''` are interchangeable under the `||` defaults and the
truthiness guards used here).  `JSON.parse` and `JSON.stringify` of the
platform are passed in as parameters `parse` (with `none` for a thrown
parse error) and `stringify`. -/

/-- Cell access `row[i]`, with absence normalized to the empty string. -/
def cell (row : List String) (i : Nat) : String :=
  (row.get? i).getD ""

/-- Decoding of one JSON-encoded column: `row[i] ? JSON.parse(row[i]) : d`;
`none` when the decode throws. -/
def parseCell (parse : String → Option Json) (row : List String) (i : Nat)
    (d : Json) : Option Json :=
  if cell row i == "" then some d else parse (cell row i)

/-- A record as reconstructed from one sheet row by `fetchJobs`. -/
structure SheetJob where
  id : String
  company : String
  role : String
  location : String
  status : String
  dateApplied : String
  description : String
  notes : String
  events : Json
  emails : Json
  aiInsights : Json

/-- The per-row mapping inside `fetchJobs` (`src/unnamed/part_002` lines
140-159): the row's `try` block returns `null` (here `none`) when any of the
three encoded columns fails to decode, and that row is filtered out. -/
def rowToJob (parse : String → Option Json) (now : String)
    (row : List String) : Option SheetJob :=
  match parseCell parse row 8 (.arr []), parseCell parse row 9 (.arr []),
        parseCell parse row 10 (.obj []) with
  | some ev, some em, some ai =>
    some { id := cell row 0, company := cell row 1, role := cell row 2,
           location := cell row 3,
           status := if cell row 4 == "" then "APPLIED" else cell row 4,
           dateApplied := if cell row 5 == "" then now else cell row 5,
           description := cell row 6, notes := cell row 7,
           events := ev, emails := em, aiInsights := ai }
  | _, _, _ => none

/-- `fetchJobs` on the fetched data rows (header excluded): map each row and
drop the rows that failed. -/
def fetchJobs (parse : String → Option Json) (now : String)
    (rows : List (List String)) : List SheetJob :=
  rows.filterMap (rowToJob parse now)

/-- The row tuple written by `saveJob`, in the fixed column order. -/
def rowData (stringify : Json → String) (job : SheetJob) : List String :=
  [job.id, job.company, job.role, job.location, job.status, job.dateApplied,
   job.description, job.notes, stringify job.events, stringify job.emails,
   stringify (if truthy job.aiInsights then job.aiInsights else .obj [])]

/-- A row mutation request issued against the spreadsheet: an appended row, an
overwrite of the 1-based sheet row `rowNum` (range `A{rowNum}:K{rowNum}`), or
a deletion of the 0-based grid row interval `[startIndex, endIndex)`. -/
inductive SheetMutation where
  | append (values : List String) : SheetMutation
  | update (rowNum : Nat) (values : List String) : SheetMutation
  | deleteRows (startIndex endIndex : Nat) : SheetMutation

/-- The row mutation issued by `saveJob` (`src/unnamed/part_002` lines
162-201): append when new; otherwise re-fetch, find the record with the same
id in the fetched list, and overwrite row `index + 2`, or do nothing if the
id is not found. -/
def saveJobRequest (parse : String → Option Json) (stringify : Json → String)
    (now : String) (rows : List (List String)) (job : SheetJob)
    (isNew : Bool) : Option SheetMutation :=
  if isNew then some (.append (rowData stringify job))
  else
    match (fetchJobs parse now rows).findIdx? (fun j => j.id == job.id) with
    | some index => some (.update (index + 2) (rowData stringify job))
    | none => none

/-- The row mutation issued by `deleteJob` (`src/unnamed/part_002` lines
203-226): re-fetch, find the record with the given id in the fetched list,
and delete the grid row interval `[index + 1, index + 2)`, or do nothing if
the id is not found. -/
def deleteJobRequest (parse : String → Option Json) (now : String)
    (rows : List (List String)) (jobId : String) : Option SheetMutation :=
  match (fetchJobs parse now rows).findIdx? (fun j => j.id == jobId) with
  | some index => some (.deleteRows (index + 1) (index + 2))
  | none => none

/-! ## Basic lemmas about the object-literal operations -/

theorem lookup_setKey_self (fs : List (String × Json)) (k : String) (v : Json) :
    (setKey fs k v).lookup k = some v := by
  induction fs with
  | nil => simp [setKey, List.lookup]
  | cons p fs ih =>
    obtain ⟨k9, v9⟩ := p
    by_cases h : k9 = k
    · subst h
      simp [setKey, List.lookup]
    · have h1 : (k9 == k) = false := beq_eq_false_iff_ne.mpr h
      have h2 : (k == k9) = false := beq_eq_false_iff_ne.mpr (Ne.symm h)
      simp [setKey, h1, List.lookup, h2, ih]

theorem removeKey_cons_self (fs : List (String × Json)) (k : String) (v : Json) :
    removeKey ((k, v) :: fs) k = removeKey fs k := by
  simp [removeKey, List.filter_cons]

theorem removeKey_cons_ne (fs : List (String × Json)) (k9 k : String) (v : Json)
    (h : k9 ≠ k) : removeKey ((k9, v) :: fs) k = (k9, v) :: removeKey fs k := by
  simp [removeKey, List.filter_cons, bne_iff_ne.mpr h]

theorem lookup_removeKey_self (fs : List (String × Json)) (k : String) :
    (removeKey fs k).lookup k = none := by
  induction fs with
  | nil => simp [removeKey]
  | cons p fs ih =>
    obtain ⟨k9, v9⟩ := p
    by_cases h : k9 = k
    · subst h
      rw [removeKey_cons_self]
      exact ih
    · have h2 : (k == k9) = false := beq_eq_false_iff_ne.mpr (Ne.symm h)
      rw [removeKey_cons_ne fs k9 k v9 h, List.lookup_cons]
      simp only [h2]
      exact ih

theorem lookup_removeKey_ne (fs : List (String × Json)) (k k2 : String)
    (h : k ≠ k2) : (removeKey fs k2).lookup k = fs.lookup k := by
  induction fs with
  | nil => simp [removeKey]
  | cons p fs ih =>
    obtain ⟨k9, v9⟩ := p
    by_cases h9 : k9 = k2
    · subst h9
      have h2 : (k == k9) = false := beq_eq_false_iff_ne.mpr h
      rw [removeKey_cons_self, List.lookup_cons]
      simp only [h2]
      exact ih
    · rw [removeKey_cons_ne fs k9 k2 v9 h9, List.lookup_cons, List.lookup_cons]
      by_cases hk : k = k9
      · simp [hk]
      · have h2 : (k == k9) = false := beq_eq_false_iff_ne.mpr hk
        simp only [h2]
        exact ih

theorem jsGet_ok (j : Json) (k : String) (h : j ≠ .null) :
    jsGet j k = .ok (getField j k) := by
  cases j with
  | null => exact absurd rfl h
  | bool b => rfl
  | num n => rfl
  | str s => rfl
  | arr l => rfl
  | obj fs => rfl

theorem ne_null_of_jsGet_ok (j : Json) (k : String) (c : Option Json)
    (h : jsGet j k = .ok c) : j ≠ .null := by
  intro e
  subst e
  exact Except.noConfusion h

/-- After the migration rewrites a record, its `contacts` property is a truthy
array, so a second migration pass leaves the record unchanged. -/
theorem migrate_of_truthy_contacts (g : String) (fs : List (String × Json))
    (h : truthyOpt (fs.lookup "contacts") = true) :
    migrate g (.obj fs) = .ok (.obj fs) := by
  unfold migrate
  simp [jsGet, getField, h]

/-- **C1** (amended): for every raw record whose `contacts` property is absent
or falsy — an empty `contacts` array counts as present, so no contact is
synthesized for it — and whose deprecated `recruitingContact` field is a
non-empty string, the load-time migration succeeds and returns a record whose
`contacts` holds exactly one synthesized Contact; that Contact's
`organization` equals the deprecated string verbatim, its `name` is the
string "Primary Contact" (not the empty string), its `role`, `email`,
`phone` and `linkedin` are empty strings, and the deprecated field is
cleared. -/
theorem migrate_synthesizes_contact (gid : String) (j : Json) (c : Option Json)
    (s : String) (hc : jsGet j "contacts" = .ok c) (hcf : truthyOpt c = false)
    (hr : jsGet j "recruitingContact" = .ok (some (.str s))) (hs : s ≠ "") :
    ∃ r, migrate gid j = .ok r ∧
      getField r "contacts" = some (.arr [newContact gid s]) ∧
      getField r "recruitingContact" = none ∧
      getField (newContact gid s) "organization" = some (.str s) ∧
      getField (newContact gid s) "name" = some (.str "Primary Contact") ∧
      getField (newContact gid s) "role" = some (.str "") ∧
      getField (newContact gid s) "email" = some (.str "") ∧
      getField (newContact gid s) "phone" = some (.str "") ∧
      getField (newContact gid s) "linkedin" = some (.str "") := by
  have hs2 : (s == "") = false := beq_eq_false_iff_ne.mpr hs
  refine ⟨.obj (removeKey (setKey (spreadFields j) "contacts"
      (.arr [newContact gid s])) "recruitingContact"),
    ?_, ?_, ?_, rfl, rfl, rfl, rfl, rfl, rfl⟩
  · simp only [migrate, hc, hcf, Bool.false_eq_true, if_false, hr, hs2]
  · show (removeKey (setKey (spreadFields j) "contacts"
      (.arr [newContact gid s])) "recruitingContact").lookup "contacts" = _
    rw [lookup_removeKey_ne _ _ _ (by decide), lookup_setKey_self]
  · exact lookup_removeKey_self _ _

/-- **C1** as stated is false on two counts.  First, a record whose
`contacts` is an empty array (hence "not a non-empty sequence") and whose
`recruitingContact` is a non-empty string is returned unchanged — no contact
is synthesized, the deprecated field is not cleared — because the code tests
JavaScript truthiness of `contacts` and an empty array is truthy.  Second,
when a contact is synthesized, its `name` field is "Primary Contact", not
the empty string. -/
theorem migrate_claim_c1_fails :
    (migrate "g" (.obj [("contacts", .arr []),
        ("recruitingContact", .str "Acme Staffing")]) =
      .ok (.obj [("contacts", .arr []),
        ("recruitingContact", .str "Acme Staffing")])) ∧
    getField (.obj [("contacts", .arr []),
        ("recruitingContact", .str "Acme Staffing")]) "recruitingContact" =
      some (.str "Acme Staffing") ∧
    (migrate "g" (.obj [("recruitingContact", .str "Acme Staffing")]) =
      .ok (.obj [("contacts", .arr [newContact "g" "Acme Staffing"])])) ∧
    getField (newContact "g" "Acme Staffing") "name" =
      some (.str "Primary Contact") ∧
    Json.str "Primary Contact" ≠ Json.str "" :=
  ⟨rfl, rfl, rfl, rfl, by simp⟩

/-- Witness for the amended C1 at a concrete record with an absent `contacts`
property. -/
theorem migrate_synthesizes_contact_witness :
    ∃ r, migrate "w1" (.obj [("id", .str "1"),
        ("recruitingContact", .str "Beta LLC")]) = .ok r ∧
      getField r "contacts" = some (.arr [newContact "w1" "Beta LLC"]) ∧
      getField r "recruitingContact" = none ∧
      getField (newContact "w1" "Beta LLC") "organization" =
        some (.str "Beta LLC") ∧
      getField (newContact "w1" "Beta LLC") "name" =
        some (.str "Primary Contact") ∧
      getField (newContact "w1" "Beta LLC") "role" = some (.str "") ∧
      getField (newContact "w1" "Beta LLC") "email" = some (.str "") ∧
      getField (newContact "w1" "Beta LLC") "phone" = some (.str "") ∧
      getField (newContact "w1" "Beta LLC") "linkedin" = some (.str "") :=
  migrate_synthesizes_contact "w1"
    (.obj [("id", .str "1"), ("recruitingContact", .str "Beta LLC")])
    none "Beta LLC" rfl rfl rfl (by decide)

/-- **C2** (amended): the no-coexistence invariant holds for exactly the
records the migration actually rewrites — those whose raw `contacts`
property is absent or falsy.  For such a record, if the migrated record's
`contacts` is a non-empty array then its `recruitingContact` is cleared. -/
theorem migrate_no_coexistence (gid : String) (j r : Json) (c : Option Json)
    (hc : jsGet j "contacts" = .ok c) (hcf : truthyOpt c = false)
    (hm : migrate gid j = .ok r) (l : List Json)
    (hl : getField r "contacts" = some (.arr l)) (hne : l ≠ []) :
    getField r "recruitingContact" = none := by
  have hj : j ≠ .null := ne_null_of_jsGet_ok j "contacts" c hc
  rw [migrate, hc] at hm
  simp only [hcf, Bool.false_eq_true, if_false, jsGet_ok j "recruitingContact" hj] at hm
  rcases hrc : getField j "recruitingContact" with _ | v
  · rw [hrc] at hm
    cases hm
    rw [show getField (Json.obj (setKey (spreadFields j) "contacts" (.arr [])))
        "contacts" = (setKey (spreadFields j) "contacts" (.arr [])).lookup
        "contacts" from rfl, lookup_setKey_self] at hl
    cases hl
    exact absurd rfl hne
  · rw [hrc] at hm
    cases v with
    | str s =>
      by_cases hs : s = ""
      · subst hs
        simp only [if_pos rfl] at hm
        cases hm
        rw [show getField (Json.obj (setKey (spreadFields j) "contacts"
            (.arr []))) "contacts" = (setKey (spreadFields j) "contacts"
            (.arr [])).lookup "contacts" from rfl, lookup_setKey_self] at hl
        cases hl
        exact absurd rfl hne
      · have hs2 : (s == "") = false := beq_eq_false_iff_ne.mpr hs
        simp only [hs2, Bool.false_eq_true, if_false] at hm
        cases hm
        exact lookup_removeKey_self _ _
    | null =>
      cases hm
      rw [show getField (Json.obj (setKey (spreadFields j) "contacts"
          (.arr []))) "contacts" = (setKey (spreadFields j) "contacts"
          (.arr [])).lookup "contacts" from rfl, lookup_setKey_self] at hl
      cases hl
      exact absurd rfl hne
    | bool b =>
      cases hm
      rw [show getField (Json.obj (setKey (spreadFields j) "contacts"
          (.arr []))) "contacts" = (setKey (spreadFields j) "contacts"
          (.arr [])).lookup "contacts" from rfl, lookup_setKey_self] at hl
      cases hl
      exact absurd rfl hne
    | num n =>
      cases hm
      rw [show getField (Json.obj (setKey (spreadFields j) "contacts"
          (.arr []))) "contacts" = (setKey (spreadFields j) "contacts"
          (.arr [])).lookup "contacts" from rfl, lookup_setKey_self] at hl
      cases hl
      exact absurd rfl hne
    | arr es =>
      cases hm
      rw [show getField (Json.obj (setKey (spreadFields j) "contacts"
          (.arr []))) "contacts" = (setKey (spreadFields j) "contacts"
          (.arr [])).lookup "contacts" from rfl, lookup_setKey_self] at hl
      cases hl
      exact absurd rfl hne
    | obj fs2 =>
      cases hm
      rw [show getField (Json.obj (setKey (spreadFields j) "contacts"
          (.arr []))) "contacts" = (setKey (spreadFields j) "contacts"
          (.arr [])).lookup "contacts" from rfl, lookup_setKey_self] at hl
      cases hl
      exact absurd rfl hne

/-- **C2** as stated is false: a raw record that already carries a populated
`contacts` array together with a non-empty deprecated `recruitingContact`
string passes through the migration untouched, so the migrated record has
both a non-empty `contacts` and a retained `recruitingContact`. -/
theorem migrate_claim_c2_fails :
    (migrate "g" (.obj [("contacts", .arr [.obj [("name", .str "Bob")]]),
        ("recruitingContact", .str "Acme")]) =
      .ok (.obj [("contacts", .arr [.obj [("name", .str "Bob")]]),
        ("recruitingContact", .str "Acme")])) ∧
    getField (.obj [("contacts", .arr [.obj [("name", .str "Bob")]]),
        ("recruitingContact", .str "Acme")]) "contacts" =
      some (.arr [.obj [("name", .str "Bob")]]) ∧
    getField (.obj [("contacts", .arr [.obj [("name", .str "Bob")]]),
        ("recruitingContact", .str "Acme")]) "recruitingContact" =
      some (.str "Acme") ∧
    getField (.obj [("contacts", .arr [.obj [("name", .str "Bob")]]),
        ("recruitingContact", .str "Acme")]) "recruitingContact" ≠ none :=
  ⟨rfl, rfl, rfl, fun h => Option.noConfusion h⟩

/-- Witness for the amended C2 at a concrete record whose migration
synthesizes a contact. -/
theorem migrate_no_coexistence_witness :
    getField (.obj [("contacts", .arr [newContact "w2" "Zeta"])])
      "recruitingContact" = none :=
  migrate_no_coexistence "w2" (.obj [("recruitingContact", .str "Zeta")])
    (.obj [("contacts", .arr [newContact "w2" "Zeta"])]) none rfl rfl rfl
    [newContact "w2" "Zeta"] rfl (by simp)

/-- **C3**: the load-time migration is idempotent.  Because the migration is
id-generating (hence not a pure function of the record alone), idempotence is
stated for arbitrary id draws `g1`, `g2` of the two passes: feeding the first
pass's result (or error) through a second pass changes nothing.  A record the
first pass throws on makes both sides throw; any record the first pass
returns has a truthy `contacts` array, so the second pass returns it
unchanged. -/
theorem migrate_idempotent (g1 g2 : String) (j : Json) :
    (migrate g1 j).bind (migrate g2) = migrate g1 j := by
  by_cases hj : j = .null
  · subst hj
    rfl
  · have h1 : jsGet j "contacts" = .ok (getField j "contacts") :=
      jsGet_ok j "contacts" hj
    have h2 : jsGet j "recruitingContact" =
        .ok (getField j "recruitingContact") := jsGet_ok j "recruitingContact" hj
    cases ht : truthyOpt (getField j "contacts") with
    | true =>
      have hm : migrate g1 j = .ok j := by
        rw [migrate, h1]
        simp only [ht, if_true]
      rw [hm]
      show migrate g2 j = .ok j
      rw [migrate, h1]
      simp only [ht, if_true]
    | false =>
      rcases hrc : getField j "recruitingContact" with _ | v
      · have hm : migrate g1 j =
            .ok (.obj (setKey (spreadFields j) "contacts" (.arr []))) := by
          rw [migrate, h1]
          simp only [ht, Bool.false_eq_true, if_false, h2, hrc]
        rw [hm]
        exact migrate_of_truthy_contacts g2 _ (by rw [lookup_setKey_self]; rfl)
      · cases v with
        | str s =>
          by_cases hs : s = ""
          · subst hs
            have hm : migrate g1 j =
                .ok (.obj (setKey (spreadFields j) "contacts" (.arr []))) := by
              rw [migrate, h1]
              simp only [ht, Bool.false_eq_true, if_false, h2, hrc]
              simp
            rw [hm]
            exact migrate_of_truthy_contacts g2 _ (by rw [lookup_setKey_self]; rfl)
          · have hs2 : (s == "") = false := beq_eq_false_iff_ne.mpr hs
            have hm : migrate g1 j = .ok (.obj (removeKey
                (setKey (spreadFields j) "contacts" (.arr [newContact g1 s]))
                "recruitingContact")) := by
              rw [migrate, h1]
              simp only [ht, Bool.false_eq_true, if_false, h2, hrc, hs2]
            rw [hm]
            refine migrate_of_truthy_contacts g2 _ ?_
            rw [lookup_removeKey_ne _ _ _ (by decide), lookup_setKey_self]
            rfl
        | null =>
          have hm : migrate g1 j =
              .ok (.obj (setKey (spreadFields j) "contacts" (.arr []))) := by
            rw [migrate, h1]
            simp only [ht, Bool.false_eq_true, if_false, h2, hrc]
          rw [hm]
          exact migrate_of_truthy_contacts g2 _ (by rw [lookup_setKey_self]; rfl)
        | bool b =>
          have hm : migrate g1 j =
              .ok (.obj (setKey (spreadFields j) "contacts" (.arr []))) := by
            rw [migrate, h1]
            simp only [ht, Bool.false_eq_true, if_false, h2, hrc]
          rw [hm]
          exact migrate_of_truthy_contacts g2 _ (by rw [lookup_setKey_self]; rfl)
        | num n =>
          have hm : migrate g1 j =
              .ok (.obj (setKey (spreadFields j) "contacts" (.arr []))) := by
            rw [migrate, h1]
            simp only [ht, Bool.false_eq_true, if_false, h2, hrc]
          rw [hm]
          exact migrate_of_truthy_contacts g2 _ (by rw [lookup_setKey_self]; rfl)
        | arr es =>
          have hm : migrate g1 j =
              .ok (.obj (setKey (spreadFields j) "contacts" (.arr []))) := by
            rw [migrate, h1]
            simp only [ht, Bool.false_eq_true, if_false, h2, hrc]
          rw [hm]
          exact migrate_of_truthy_contacts g2 _ (by rw [lookup_setKey_self]; rfl)
        | obj fs2 =>
          have hm : migrate g1 j =
              .ok (.obj (setKey (spreadFields j) "contacts" (.arr []))) := by
            rw [migrate, h1]
            simp only [ht, Bool.false_eq_true, if_false, h2, hrc]
          rw [hm]
          exact migrate_of_truthy_contacts g2 _ (by rw [lookup_setKey_self]; rfl)

theorem migrate_ok_of_ne_null (g : String) (j : Json) (h : j ≠ .null) :
    ∃ r, migrate g j = .ok r := by
  rw [migrate, jsGet_ok j "contacts" h, jsGet_ok j "recruitingContact" h]
  cases ht : truthyOpt (getField j "contacts") with
  | true => exact ⟨j, by simp [ht]⟩
  | false =>
    simp only [ht, Bool.false_eq_true, if_false]
    rcases getField j "recruitingContact" with _ | v
    · exact ⟨_, rfl⟩
    · cases v with
      | str s =>
        by_cases hs : s = ""
        · subst hs
          exact ⟨.obj (setKey (spreadFields j) "contacts" (.arr [])), by simp⟩
        · exact ⟨.obj (removeKey (setKey (spreadFields j) "contacts"
            (.arr [newContact g s])) "recruitingContact"),
            by simp [beq_eq_false_iff_ne.mpr hs]⟩
      | null => exact ⟨_, rfl⟩
      | bool b => exact ⟨_, rfl⟩
      | num n => exact ⟨_, rfl⟩
      | arr es => exact ⟨_, rfl⟩
      | obj fs => exact ⟨_, rfl⟩

theorem loadMigrateAll_error_of_null (gid : Nat → String) (js : List Json)
    (h : Json.null ∈ js) : ∀ i, loadMigrateAll gid i js = .error () := by
  induction js with
  | nil => cases h
  | cons j js ih =>
    intro i
    rcases List.mem_cons.mp h with h1 | h2
    · subst h1
      rfl
    · cases hm : migrate (gid i) j with
      | error e =>
        cases e
        simp [loadMigrateAll, hm]
      | ok r => simp [loadMigrateAll, hm, ih h2]

theorem loadMigrateAll_ok_of_no_null (gid : Nat → String) (js : List Json)
    (h : ∀ j ∈ js, j ≠ .null) :
    ∀ i, ∃ l, loadMigrateAll gid i js = .ok l ∧ l.length = js.length := by
  induction js with
  | nil => exact fun i => ⟨[], rfl, rfl⟩
  | cons j js ih =>
    intro i
    obtain ⟨r, hr⟩ := migrate_ok_of_ne_null (gid i) j (h j (List.mem_cons_self j js))
    obtain ⟨l, hl, hlen⟩ := ih (fun x hx => h x (List.mem_cons_of_mem _ hx)) (i + 1)
    exact ⟨r :: l, by simp [loadMigrateAll, hr, hl], by simp [hlen]⟩

/-- **C5** (amended): the load initializer itself never raises — any thrown
error is caught and degrades to the empty collection — and on a collection
with no `null` element the migration throws on nothing and returns one
migrated record for every element.  But the element-wise isolation the claim
asserts does not hold: a single `null` element makes the migration's property
access throw, the error aborts the whole `map`, and the entire collection
load yields the empty collection.  (Wrong-typed fields other than `contacts`
and `recruitingContact` are not defaulted at load; only the import sanitizer
assigns placeholder defaults.) -/
theorem load_null_wipes_collection (gid : Nat → String) (js : List Json) :
    (Json.null ∈ js → loadParsed gid (.arr js) = []) ∧
    ((∀ j ∈ js, j ≠ .null) →
      (loadParsed gid (.arr js)).length = js.length) := by
  constructor
  · intro h
    simp [loadParsed, loadMigrateAll_error_of_null gid js h 0]
  · intro h
    obtain ⟨l, hl, hlen⟩ := loadMigrateAll_ok_of_no_null gid js h 0
    simp [loadParsed, hl, hlen]

/-- **C5** as stated is false: the persisted collection below contains one
malformed (`null`) element next to a perfectly well-formed record, and the
load returns the empty collection — the malformed element makes the whole
collection load fail, and no safe defaults are applied. -/
theorem load_claim_c5_fails :
    loadParsed (fun _ => "i") (.arr [Json.null,
      .obj [("id", .str "keep"), ("company", .str "Acme"),
            ("contacts", .arr [newContact "x" "Org"])]]) = [] := rfl

/-- Witness for the amended C5: a lone `null` element empties the load, and a
lone well-formed object survives it. -/
theorem load_null_wipes_collection_witness :
    loadParsed (fun _ => "g") (.arr [Json.null]) = [] ∧
    (loadParsed (fun _ => "g")
      (.arr [Json.obj [("company", .str "A")]])).length = 1 :=
  ⟨(load_null_wipes_collection (fun _ => "g") [Json.null]).1 (by simp),
   by
    have h2 := (load_null_wipes_collection (fun _ => "g")
      [Json.obj [("company", .str "A")]]).2 (by simp)
    simpa using h2⟩

/-- **C6**: whenever the sanitized import result is empty (for example for
the input text "[]", which parses to the empty array), the import fails with
the no-valid-records outcome, and the stored collection is unchanged whether
or not the operator would confirm — an import never replaces existing data
with an empty result. -/
theorem import_rejects_empty (ids : Nat → String × String) (now : String)
    (js : List Json) (h : sanitizeList ids now 0 js = [])
    (prior : List Json) (confirmed : Bool) :
    importParsed ids now (.arr js) = .noValidRecords ∧
    applyImport prior (importParsed ids now (.arr js)) confirmed = prior := by
  have h2 : importParsed ids now (.arr js) = .noValidRecords := by
    simp [importParsed, h]
  refine ⟨h2, ?_⟩
  rw [h2]
  cases confirmed <;> rfl

/-- Witness for C6 at the parsed form of the input text "[]". -/
theorem import_rejects_empty_witness :
    importParsed (fun _ => ("g", "c")) "t" (.arr []) = .noValidRecords ∧
    applyImport [Json.num 1] (importParsed (fun _ => ("g", "c")) "t" (.arr []))
      true = [Json.num 1] :=
  import_rejects_empty (fun _ => ("g", "c")) "t" [] rfl [Json.num 1] true

/-- **C7** (amended): a fetched row whose encoded columns fail to decode is
dropped from the result — its columns are not defaulted to empty — and its
failure is isolated: every other row still yields its record and the fetch is
not aborted. -/
theorem fetch_isolates_bad_row (parse : String → Option Json) (now : String)
    (rows1 rows2 : List (List String)) (bad : List String)
    (hbad : rowToJob parse now bad = none) :
    fetchJobs parse now (rows1 ++ bad :: rows2) =
      fetchJobs parse now rows1 ++ fetchJobs parse now rows2 := by
  simp [fetchJobs, List.filterMap_append, List.filterMap_cons, hbad]

/-- **C7** as stated is false: the second row's events column holds
undecodable text, and the fetch returns only the first row's record — no
record with the second row's identifier and empty-defaulted columns
appears. -/
theorem fetch_claim_c7_fails :
    fetchJobs (fun _ => none) "n"
      [["ok", "C", "R", "L", "APPLIED", "d", "ds", "nt", "", "", ""],
       ["x", "C2", "R2", "L2", "APPLIED", "d2", "", "", "BAD", "", ""]] =
      [{ id := "ok", company := "C", role := "R", location := "L",
         status := "APPLIED", dateApplied := "d", description := "ds",
         notes := "nt", events := .arr [], emails := .arr [],
         aiInsights := .obj [] }] := rfl

/-- Witness for the amended C7 at a concrete row set with one undecodable
row. -/
theorem fetch_isolates_bad_row_witness :
    fetchJobs (fun _ => none) "m"
      ([["a", "A", "B", "", "", "", "", "", "", "", ""]] ++
        ["z", "Z", "Y", "", "", "", "", "", "BAD", "", ""] :: []) =
      fetchJobs (fun _ => none) "m"
        [["a", "A", "B", "", "", "", "", "", "", "", ""]] ++
      fetchJobs (fun _ => none) "m" [] :=
  fetch_isolates_bad_row (fun _ => none) "m"
    [["a", "A", "B", "", "", "", "", "", "", "", ""]] []
    ["z", "Z", "Y", "", "", "", "", "", "BAD", "", ""] rfl

/-- **C8**: the code looks the identifier up in the *filtered* fetched list,
but issues the deletion against the sheet grid, where the header occupies
grid row 0 and the data row at position `p` occupies grid row `p + 1`.  On a
sheet whose first data row is undecodable (and hence dropped from the fetch),
deleting the identifier held by the second data row (data position 1, grid
row 2) issues a deletion of the grid interval [1, 2) — the undecodable row —
instead of the interval [2, 3) that holds the identifier.  The fetched-list
index is not the position in the resource. -/
theorem delete_targets_wrong_row :
    deleteJobRequest (fun _ => none) "n"
      [["bad1", "C", "R", "", "", "", "", "", "NOTJSON", "", ""],
       ["tgt", "C2", "R2", "", "", "", "", "", "", "", ""]] "tgt" =
      some (.deleteRows 1 2) ∧
    List.findIdx? (fun row => cell row 0 == "tgt")
      [["bad1", "C", "R", "", "", "", "", "", "NOTJSON", "", ""],
       ["tgt", "C2", "R2", "", "", "", "", "", "", "", ""]] = some 1 ∧
    some (SheetMutation.deleteRows 1 2) ≠ some (SheetMutation.deleteRows 2 3) := by
  refine ⟨rfl, rfl, ?_⟩
  simp

/-- **C9**: updating (saveOne with isNew false) or deleting with an
identifier absent from the fetched records issues no row mutation request at
all: no overwrite, no appended duplicate, no row deletion. -/
theorem missing_id_no_mutation (parse : String → Option Json)
    (stringify : Json → String) (now : String) (rows : List (List String))
    (job : SheetJob) (h : ∀ x ∈ fetchJobs parse now rows, x.id ≠ job.id) :
    saveJobRequest parse stringify now rows job false = none ∧
    deleteJobRequest parse now rows job.id = none := by
  have hf : (fetchJobs parse now rows).findIdx? (fun x => x.id == job.id) =
      none :=
    List.findIdx?_eq_none_iff.mpr
      (fun x hx => beq_eq_false_iff_ne.mpr (h x hx))
  constructor
  · simp [saveJobRequest, hf]
  · simp [deleteJobRequest, hf]

/-- Witness for C9 at a concrete sheet holding only the identifier "a",
updated and deleted with the absent identifier "zzz". -/
theorem missing_id_no_mutation_witness :
    saveJobRequest (fun _ => none) (fun _ => "e") "n"
      [["a", "A", "B", "", "", "", "", "", "", "", ""]]
      { id := "zzz", company := "Q", role := "W", location := "",
        status := "APPLIED", dateApplied := "d", description := "",
        notes := "", events := .arr [], emails := .arr [],
        aiInsights := .obj [] } false = none ∧
    deleteJobRequest (fun _ => none) "n"
      [["a", "A", "B", "", "", "", "", "", "", "", ""]] "zzz" = none :=
  missing_id_no_mutation (fun _ => none) (fun _ => "e") "n"
    [["a", "A", "B", "", "", "", "", "", "", "", ""]]
    { id := "zzz", company := "Q", role := "W", location := "",
      status := "APPLIED", dateApplied := "d", description := "",
      notes := "", events := .arr [], emails := .arr [],
      aiInsights := .obj [] } (by decide)

/-! ## Lemmas about the import sanitizer's defaults -/

theorem jOr_str_of_ne (s : String) (d : Json) (h : s ≠ "") :
    jOr (some (.str s)) d = .str s := by
  simp [jOr, truthy, bne_iff_ne.mpr h]

theorem jOr_str_empty_default (s : String) :
    jOr (some (.str s)) (.str "") = .str s := by
  by_cases h : s = ""
  · subst h
    rfl
  · exact jOr_str_of_ne s _ h

theorem jOr_of_truthy (v d : Json) (h : truthy v = true) :
    jOr (some v) d = v := by
  simp [jOr, h]

theorem statusValues_contains_toStr (st : JobStatus) :
    statusValues.contains st.toStr = true := by
  cases st <;> rfl

theorem toStr_mem_statusValues (st : JobStatus) : st.toStr ∈ statusValues := by
  cases st <;> decide

/-- An export-stable record is reproduced exactly by the import sanitizer. -/
theorem sanitizeItem_stable (g c now : String) (job : Job)
    (h : ExportStable job) :
    sanitizeItem g c now (Job.toJson job) = some (Job.toJson job) := by
  obtain ⟨hid, hco, hro, hda, hloc, hrc, v, hai, hv⟩ := h
  obtain ⟨jid, jcompany, jrole, jlocation, jsalary, jstatus, jdate, jdesc,
    jnotes, jemails, jevents, jcontacts, jrcontact, jinsights⟩ := job
  dsimp only at hid hco hro hda hloc hrc hai
  subst hrc hai
  obtain ⟨lv, hlv⟩ : ∃ lv, jlocation = some lv := by
    cases jlocation with
    | none => simp at hloc
    | some lv => exact ⟨lv, rfl⟩
  subst hlv
  rcases jsalary with _ | sv <;>
    simp [sanitizeItem, Job.toJson, optField, getField, List.lookup,
      jOr_str_of_ne _ _ hid, jOr_str_of_ne _ _ hco, jOr_str_of_ne _ _ hro,
      jOr_str_of_ne _ _ hda, jOr_str_empty_default, jOr_of_truthy _ _ hv,
      statusValues_contains_toStr, toStr_mem_statusValues, truthy,
      isObjectType]

/-- Sanitizing the serialized form of export-stable records reproduces them
in order, whatever ids the sanitizer would generate. -/
theorem sanitizeList_stable (ids : Nat → String × String) (now : String)
    (jobs : List Job) (h : ∀ job ∈ jobs, ExportStable job) :
    ∀ i, sanitizeList ids now i (jobs.map Job.toJson) = jobs.map Job.toJson := by
  induction jobs with
  | nil => intro i; rfl
  | cons job jobs ih =>
    intro i
    have h1 := sanitizeItem_stable (ids i).1 (ids i).2 now job
      (h job (List.mem_cons_self _ _))
    simp [sanitizeList, List.map_cons, h1,
      ih (fun x hx => h x (List.mem_cons_of_mem _ hx)) (i + 1)]

/-- **C4** (amended): importing the export of a non-empty collection of
export-stable records — records whose id, company, role and date are
non-empty, whose location and (truthy) AI-insights fields are present, and
which carry no deprecated `recruitingContact` — reproduces, after operator
confirmation, exactly the serialized collection, element order preserved.
(Records outside this class are altered by the sanitizer's placeholder
defaults, see the counterexample.) -/
theorem import_export_roundtrip (ids : Nat → String × String) (now : String)
    (C : List Job) (hne : C ≠ []) (h : ∀ job ∈ C, ExportStable job)
    (prior : List Json) :
    importParsed ids now (exportData C) = .proposeReplace (C.map Job.toJson) ∧
    applyImport prior (importParsed ids now (exportData C)) true =
      C.map Job.toJson := by
  have hs := sanitizeList_stable ids now C h 0
  have h2 : importParsed ids now (exportData C) =
      .proposeReplace (C.map Job.toJson) := by
    simp [importParsed, exportData, hs, List.isEmpty_iff, hne]
  exact ⟨h2, by rw [h2]; rfl⟩

/-- **C4** as stated is false, in each of the ways the amendment excludes:
a record with an empty company (or empty id) is rewritten to a placeholder
(or a generated id); an absent location or AI-insights field is materialized
as an empty string or empty object; a record with a deprecated
`recruitingContact` loses it; and an empty collection is rejected outright
instead of round-tripping. -/
theorem import_claim_c4_fails :
    (∃ out, importParsed (fun _ => ("g", "c")) "t"
      (exportData [⟨"a", "", "r", some "", none, .APPLIED, "d", "x", "y",
        [], [], [], none, some (.obj [])⟩]) = .proposeReplace [out] ∧
      getField out "company" = some (.str "Unknown Company") ∧
      getField (Job.toJson ⟨"a", "", "r", some "", none, .APPLIED, "d", "x",
        "y", [], [], [], none, some (.obj [])⟩) "company" = some (.str "") ∧
      Json.str "Unknown Company" ≠ Json.str "") ∧
    (∃ out, importParsed (fun _ => ("g", "c")) "t"
      (exportData [⟨"", "Co", "r", some "", none, .APPLIED, "d", "", "",
        [], [], [], none, some (.obj [])⟩]) = .proposeReplace [out] ∧
      getField out "id" = some (.str "g") ∧
      getField (Job.toJson ⟨"", "Co", "r", some "", none, .APPLIED, "d", "",
        "", [], [], [], none, some (.obj [])⟩) "id" = some (.str "")) ∧
    (∃ out, importParsed (fun _ => ("g", "c")) "t"
      (exportData [⟨"a3", "Co", "r", none, none, .APPLIED, "d", "", "",
        [], [], [], none, some (.obj [])⟩]) = .proposeReplace [out] ∧
      getField out "location" = some (.str "") ∧
      getField (Job.toJson ⟨"a3", "Co", "r", none, none, .APPLIED, "d", "",
        "", [], [], [], none, some (.obj [])⟩) "location" = none) ∧
    (∃ out, importParsed (fun _ => ("g", "c")) "t"
      (exportData [⟨"a4", "Co", "r", some "", none, .APPLIED, "d", "", "",
        [], [], [], none, none⟩]) = .proposeReplace [out] ∧
      getField out "aiInsights" = some (.obj []) ∧
      getField (Job.toJson ⟨"a4", "Co", "r", some "", none, .APPLIED, "d",
        "", "", [], [], [], none, none⟩) "aiInsights" = none) ∧
    (∃ out, importParsed (fun _ => ("g", "c")) "t"
      (exportData [⟨"a5", "Co", "r", some "", none, .APPLIED, "d", "", "",
        [], [], [], some "R", some (.obj [])⟩]) = .proposeReplace [out] ∧
      getField out "recruitingContact" = none ∧
      getField (Job.toJson ⟨"a5", "Co", "r", some "", none, .APPLIED, "d",
        "", "", [], [], [], some "R", some (.obj [])⟩) "recruitingContact" =
        some (.str "R")) ∧
    importParsed (fun _ => ("g", "c")) "t" (exportData []) = .noValidRecords :=
  ⟨⟨_, rfl, rfl, rfl, by simp⟩, ⟨_, rfl, rfl, rfl⟩, ⟨_, rfl, rfl, rfl⟩,
   ⟨_, rfl, rfl, rfl⟩, ⟨_, rfl, rfl, rfl⟩, rfl⟩

/-- Witness for the amended C4 at a concrete singleton collection. -/
theorem import_export_roundtrip_witness :
    importParsed (fun _ => ("g", "c")) "t"
      (exportData [⟨"b", "Acme", "Dev", some "NYC", some "100k", .APPLIED,
        "2024-01-02", "", "", [], [], [], none, some (.obj [])⟩]) =
      .proposeReplace (List.map Job.toJson [⟨"b", "Acme", "Dev", some "NYC",
        some "100k", .APPLIED, "2024-01-02", "", "", [], [], [], none,
        some (.obj [])⟩]) ∧
    applyImport [] (importParsed (fun _ => ("g", "c")) "t"
      (exportData [⟨"b", "Acme", "Dev", some "NYC", some "100k", .APPLIED,
        "2024-01-02", "", "", [], [], [], none, some (.obj [])⟩])) true =
      List.map Job.toJson [⟨"b", "Acme", "Dev", some "NYC", some "100k",
        .APPLIED, "2024-01-02", "", "", [], [], [], none, some (.obj [])⟩] :=
  import_export_roundtrip (fun _ => ("g", "c")) "t"
    [⟨"b", "Acme", "Dev", some "NYC", some "100k", .APPLIED, "2024-01-02",
      "", "", [], [], [], none, some (.obj [])⟩]
    (by simp)
    (by
      intro job hj
      rw [List.mem_singleton] at hj
      subst hj
      exact ⟨by decide, by decide, by decide, by decide, rfl, rfl,
        .obj [], rfl, rfl⟩)
    []

/-- **C10**: every record the import sanitizer accepts omits the deprecated
`recruitingContact` field — even when the input element carries both a
populated `contacts` array and a non-empty `recruitingContact` string — so
the import path always enforces the no-coexistence invariant. -/
theorem sanitized_omits_deprecated (g c now : String) (item r : Json)
    (h : sanitizeItem g c now item = some r) :
    getField r "recruitingContact" = none := by
  unfold sanitizeItem at h
  split at h
  · exact Option.noConfusion h
  · injection h with h
    subst h
    rcases getField item "salaryRange" with _ | v
    · rfl
    · rfl

/-- Witness for C10 at an element that carries both a populated `contacts`
array and a non-empty deprecated field. -/
theorem sanitized_omits_deprecated_witness :
    getField (.obj [("id", .str "g"), ("company", .str "Unknown Company"),
      ("role", .str "Unknown Role"), ("location", .str ""),
      ("contacts", .arr [.obj [("name", .str "B")]]),
      ("status", .str "APPLIED"), ("dateApplied", .str "n"),
      ("description", .str ""), ("notes", .str ""), ("emails", .arr []),
      ("events", .arr []), ("aiInsights", .obj [])])
      "recruitingContact" = none :=
  sanitized_omits_deprecated "g" "c" "n"
    (.obj [("contacts", .arr [.obj [("name", .str "B")]]),
      ("recruitingContact", .str "X")]) _ rfl

end JobHunt
